import Mathlib

/-
  Verification of the vault-utils auto-unseal controller.

  The repository contains several variant implementations of the same core:
  * `pkg/vault/client.go`, `pkg/server/server.go`, `pkg/config/config.go`,
    `pkg/kubernetes` (part_004) together with `main.go`;
  * a single-file controller `auto-unseal-controller.go` (identical to
    part_008 up to the fallback-only unseal path);
  * `part_005`, a vault client variant whose `CheckStatus` accepts the six
    recognized health codes.

  HTTP transports, the Kubernetes secret store and the file system are
  modelled as oracles passed to the embedded functions; every embedded
  function additionally returns the trace of remote calls it issued so that
  ordering and short-circuit properties can be stated.
-/

set_option autoImplicit false

namespace VaultUtils

/-- Health status of a Vault instance, decoded from a response body
(`VaultStatus` in the Go sources, `Status` in `pkg/vault/types.go`). -/
structure VaultStatus where
  sealed : Bool
  initialized : Bool
deriving Repr, DecidableEq

/-- Response body of `POST /v1/sys/unseal` (`UnsealResponse` in the sources). -/
structure UnsealResponse where
  sealed : Bool
deriving Repr, DecidableEq

/-- Request body of `PUT /v1/sys/init` (`InitRequest` in the sources). -/
structure InitRequest where
  secretShares : Int
  secretThreshold : Int
deriving Repr, DecidableEq

/-- Response body of `PUT /v1/sys/init` (`InitResponse` in the sources; the
`keys_base64` field is never read by the controller and is omitted). -/
structure InitResponse where
  keys : List String
  rootToken : String
deriving Repr, DecidableEq

/-- Result of decoding a response body as a value of type `α`: either the
bytes fail to decode (`json.Unmarshal` error, or an `io.ReadAll` failure
while reading the body) or they decode to a value. -/
inductive Body (α : Type) where
  | undecodable
  | decoded (val : α)
deriving Repr, DecidableEq

/-- An HTTP response: a status code together with a body. -/
structure HttpResponse (α : Type) where
  statusCode : Int
  body : Body α
deriving Repr, DecidableEq

/-- Transport-level outcome of one HTTP request: either the request never
produced a response (`err != nil` from the Go http client) or a response. -/
inductive HttpResult (α : Type) where
  | transportError (msg : String)
  | response (resp : HttpResponse α)
deriving Repr, DecidableEq

/-- True exactly when an `Except` value is `ok` (Go: `err == nil`). -/
def exceptOk {ε α : Type} : Except ε α → Bool
  | .ok _ => true
  | .error _ => false

/-! ## Status Prober -/

/-- The six Vault health status codes accepted by `part_005`
`Client.CheckStatus`: 200 active, 429 standby, 501 not initialized,
503 sealed, 472 DR secondary, 473 performance standby. -/
def validHealthCode (code : Int) : Bool :=
  code == 200 || code == 429 || code == 501 || code == 503 ||
  code == 472 || code == 473

/-- Embedding of `part_005` `Client.CheckStatus`: `GET /v1/sys/health`,
accept any of the six recognized codes, then decode the body as a
`VaultStatus`. -/
def checkStatusHealthMulti : HttpResult VaultStatus → Except String VaultStatus
  | .transportError m => .error ("failed to get Vault health status: " ++ m)
  | .response r =>
    if ¬ validHealthCode r.statusCode then
      .error "vault health check failed with unexpected status"
    else
      match r.body with
      | .undecodable => .error "failed to parse Vault health response"
      | .decoded s => .ok s

/-- Embedding of `checkVaultStatus` (`auto-unseal-controller.go` and
`part_008`, identical code): `GET /v1/sys/health`, accept only status 200,
then decode the body as a `VaultStatus`. -/
def checkVaultStatus : HttpResult VaultStatus → Except String VaultStatus
  | .transportError m => .error ("failed to get Vault health status: " ++ m)
  | .response r =>
    if r.statusCode ≠ 200 then
      .error "vault health check failed with status"
    else
      match r.body with
      | .undecodable => .error "failed to parse Vault health response"
      | .decoded s => .ok s

/-- Embedding of `pkg/vault` `Client.CheckStatus`: `GET /v1/sys/seal-status`,
accept only status 200, then decode the body as a `Status`. -/
def checkStatusPkg : HttpResult VaultStatus → Except String VaultStatus
  | .transportError m => .error ("failed to check status: " ++ m)
  | .response r =>
    if r.statusCode ≠ 200 then
      .error "unexpected status code"
    else
      match r.body with
      | .undecodable => .error "failed to decode response"
      | .decoded s => .ok s

/-! ## Unseal Executor -/

/-- Embedding of `pkg/vault` `Client.UnsealWithKey`: `POST /v1/sys/unseal`;
a non-200 status is an error, the body must decode, and a decoded body with
`sealed = true` is explicitly not an error (the two source branches both
return `nil`). -/
def unsealWithKeyPkg : HttpResult UnsealResponse → Except String Unit
  | .transportError m => .error ("failed to unseal: " ++ m)
  | .response r =>
    if r.statusCode ≠ 200 then
      .error "unexpected status code"
    else
      match r.body with
      | .undecodable => .error "failed to decode response"
      | .decoded u => if u.sealed then .ok () else .ok ()

/-- Embedding of `unsealWithKey` (`part_008`) and `part_005`
`Client.UnsealWithKey`: `POST /v1/sys/unseal`; a non-200 status is an
error; the body is not read. -/
def unsealWithKeyBare : HttpResult UnsealResponse → Except String Unit
  | .transportError m => .error ("failed to apply unseal key: " ++ m)
  | .response r =>
    if r.statusCode ≠ 200 then
      .error "unseal request failed with status"
    else
      .ok ()

/-- Loop body of `pkg/vault` `Client.UnsealWithKeysFromDir`: apply each key
in order via `UnsealWithKey`, stopping at the first failure. `respond n k`
is the transport outcome of the `(n+1)`-th issued unseal call, carrying
key `k`; the returned list is the keys actually posted, in issue order. -/
def unsealKeysLoopPkg (respond : Nat → String → HttpResult UnsealResponse) :
    Nat → List String → List String × Except String Unit
  | _, [] => ([], .ok ())
  | n, key :: rest =>
    match unsealWithKeyPkg (respond n key) with
    | .error e => ([key], .error ("failed to unseal with key: " ++ e))
    | .ok _ =>
      let p := unsealKeysLoopPkg respond (n + 1) rest
      (key :: p.1, p.2)

/-- Embedding of `pkg/vault` `Client.UnsealWithKeysFromDir` (which, despite
its name, receives the key slice directly). -/
def unsealWithKeysFromDirPkg (respond : Nat → String → HttpResult UnsealResponse)
    (keys : List String) : List String × Except String Unit :=
  unsealKeysLoopPkg respond 0 keys

/-- Keys directory resolution shared by `unsealVault`
(`auto-unseal-controller.go`, `part_008`) and `part_005`
`Client.UnsealWithKeysFromDir`: the empty string (unset environment
variable) falls back to `/vault/unseal-keys`. -/
def keysDirOf (envDir : String) : String :=
  if envDir = "" then "/vault/unseal-keys" else envDir

/-- Path of the `i`-th unseal key file (`filepath.Join(keysDir, "key<i>")`;
for the directory strings involved the join is plain concatenation). -/
def keyFilePath (dir : String) (i : Nat) : String :=
  dir ++ "/key" ++ toString i

/-- Read loop of `unsealVault`: read `key1`, `key2`, `key3` from the keys
directory, aborting at the first failing read. Returns the list of paths
passed to `os.ReadFile`, in order, and either an error or the three file
contents. -/
def readUnsealKeys (readFile : String → Except String String) (dir : String) :
    List String × Except String (List String) :=
  match readFile (keyFilePath dir 1) with
  | .error _ => ([keyFilePath dir 1], .error "error reading unseal key 1")
  | .ok k1 =>
    match readFile (keyFilePath dir 2) with
    | .error _ => ([keyFilePath dir 1, keyFilePath dir 2], .error "error reading unseal key 2")
    | .ok k2 =>
      match readFile (keyFilePath dir 3) with
      | .error _ =>
        ([keyFilePath dir 1, keyFilePath dir 2, keyFilePath dir 3],
          .error "error reading unseal key 3")
      | .ok k3 =>
        ([keyFilePath dir 1, keyFilePath dir 2, keyFilePath dir 3], .ok [k1, k2, k3])

/-- Apply loop of `unsealVault` (`auto-unseal-controller.go`, `part_008`)
and of `part_005` `Client.UnsealWithKeysFromDir`: post each key in order;
a transport failure, a non-200 status, or an unreadable/undecodable
response body stops the loop with an error (a decoded body is only
logged). -/
def applyKeysLoop (respond : Nat → String → HttpResult UnsealResponse) :
    Nat → List String → List String × Except String Unit
  | _, [] => ([], .ok ())
  | i, key :: rest =>
    match respond i key with
    | .transportError m => ([key], .error ("error applying unseal key: " ++ m))
    | .response r =>
      if r.statusCode ≠ 200 then ([key], .error "vault unseal failed with status")
      else
        match r.body with
        | .undecodable => ([key], .error "error parsing unseal response")
        | .decoded _ =>
          let p := applyKeysLoop respond (i + 1) rest
          (key :: p.1, p.2)

/-- Embedding of `unsealVault` (`auto-unseal-controller.go`, `part_008`;
`part_005` `Client.UnsealWithKeysFromDir` is the same function with the
directory passed as an argument): resolve the keys directory, read
`key1..key3`, then apply the three contents in order. Returns the paths
read, the keys posted in order, and the final result. -/
def unsealVaultFallback (readFile : String → Except String String)
    (respond : Nat → String → HttpResult UnsealResponse) (envDir : String) :
    List String × List String × Except String Unit :=
  let dir := keysDirOf envDir
  match readUnsealKeys readFile dir with
  | (paths, .error e) => (paths, [], .error e)
  | (paths, .ok keys) =>
    let p := applyKeysLoop respond 0 keys
    (paths, p.1, p.2)

/-! ## Initialization Coordinator -/

/-- The fixed initialization policy built by `Client.Initialize`
(`pkg/vault`, `part_005`) and `initializeVault` (`part_008`):
`SecretShares: 5, SecretThreshold: 3`. -/
def initRequestGo : InitRequest :=
  { secretShares := 5, secretThreshold := 3 }

/-- The `PUT /v1/sys/init` response handling shared verbatim by
`Client.Initialize` (`pkg/vault`, `part_005`) and `initializeVault`
(`part_008`): a transport failure, a non-200 status, or an
unreadable/undecodable body is an error, otherwise the decoded
`InitResponse` is returned. -/
def decodeInitResult : HttpResult InitResponse → Except String InitResponse
  | .transportError m => .error ("failed to initialize Vault: " ++ m)
  | .response r =>
    if r.statusCode ≠ 200 then
      .error "vault initialization failed with status"
    else
      match r.body with
      | .undecodable => .error "failed to parse init response"
      | .decoded resp => .ok resp

/-- Embedding of `Client.Initialize` (`pkg/vault`, `part_005`): the request
sent to `/v1/sys/init` together with the decoded result. -/
def initializePkg (respond : InitRequest → HttpResult InitResponse) :
    InitRequest × Except String InitResponse :=
  (initRequestGo, decodeInitResult (respond initRequestGo))

/-- Trace of the externally visible calls issued by one `initializeVault`
run: the requests sent to `/v1/sys/init`, whether the create call for each
of the two secrets was issued, and the unseal keys posted afterwards. -/
structure InitVaultTrace where
  sentInitRequests : List InitRequest
  unsealSecretCreateIssued : Bool
  rootSecretCreateIssued : Bool
  unsealKeysPosted : List String
deriving Repr, DecidableEq

/-- Final outcome of `initializeVault`: a normal return (`nil` or a Go
`error`), or a Go runtime panic (`initResp.Keys[i]` with `i` out of
range). -/
inductive InitVaultOutcome where
  | okDone
  | errReturn (msg : String)
  | panicked
deriving Repr, DecidableEq

/-- The post-persistence loop of `initializeVault` (`part_008`):
`for i := 0; i < 3; i++ { unsealWithKey(vaultAddr, initResp.Keys[i]) }`,
generalized over the loop counter. Indexing past the end of `keys` is a Go
panic. Returns the keys posted, in order, and the outcome. -/
def applyFirstN (respond : Nat → String → HttpResult UnsealResponse)
    (keys : List String) : Nat → Nat → List String × InitVaultOutcome
  | _, 0 => ([], .okDone)
  | i, n + 1 =>
    match keys.get? i with
    | none => ([], .panicked)
    | some k =>
      match unsealWithKeyBare (respond i k) with
      | .error e => ([k], .errReturn ("failed to unseal with key: " ++ e))
      | .ok _ =>
        let p := applyFirstN respond keys (i + 1) n
        (k :: p.1, p.2)

/-- Embedding of `initializeVault` (`part_008`): send the init request;
on failure return with nothing persisted; otherwise create the
`vault-unseal-keys` secret, then the `vault-root-token` secret, aborting on
the first persistence error; finally apply the first three key shares. -/
def initializeVault808 (initRespond : InitRequest → HttpResult InitResponse)
    (createUnseal : Except String Unit) (createRoot : Except String Unit)
    (unsealRespond : Nat → String → HttpResult UnsealResponse) :
    InitVaultTrace × InitVaultOutcome :=
  match decodeInitResult (initRespond initRequestGo) with
  | .error e => (⟨[initRequestGo], false, false, []⟩, .errReturn e)
  | .ok resp =>
    match createUnseal with
    | .error e =>
      (⟨[initRequestGo], true, false, []⟩,
        .errReturn ("failed to create unseal keys secret: " ++ e))
    | .ok _ =>
      match createRoot with
      | .error e =>
        (⟨[initRequestGo], true, true, []⟩,
          .errReturn ("failed to create root token secret: " ++ e))
      | .ok _ =>
        let p := applyFirstN unsealRespond resp.keys 0 3
        (⟨[initRequestGo], true, true, p.1⟩, p.2)

/-! ## Key Store Adapter (pkg/kubernetes, part_004) -/

/-- An operation issued against the external secret store. -/
inductive StoreOp where
  | createOp (name : String)
  | updateOp (name : String)
deriving Repr, DecidableEq

/-- Modelled from the spec: the external Kubernetes secret API consumed by
`part_004` (spec §6, secret store interface): `create-record` errors on a
duplicate name, otherwise adds the record. The store is the list of
existing record names. -/
def storeCreate (store : List String) (name : String) :
    Except String (List String) :=
  if store.contains name then .error "secrets already exists" else .ok (store ++ [name])

/-- Embedding of `part_004` `Client.CreateSecret`: issue a single create
call against the store; wrap and surface any error. Returns the store
operations issued and the result (the updated store on success). -/
def createSecret (store : List String) (name : String) :
    List StoreOp × Except String (List String) :=
  ([StoreOp.createOp name],
    match storeCreate store name with
    | .error e => .error ("failed to create secret " ++ name ++ ": " ++ e)
    | .ok st => .ok st)

/-- Embedding of `part_004` `Client.CreateUnsealKeySecret`: build the
`vault-unseal-keys` secret and create it via `CreateSecret`. -/
def createUnsealKeySecret (store : List String) :
    List StoreOp × Except String (List String) :=
  createSecret store "vault-unseal-keys"

/-- Embedding of `part_004` `Client.CreateRootTokenSecret`: build the
`vault-root-token` secret and create it via `CreateSecret`. -/
def createRootTokenSecret (store : List String) :
    List StoreOp × Except String (List String) :=
  createSecret store "vault-root-token"

/-! ## Reconciliation Loop, src/main.go variant -/

/-- Phase 1 of the `src/main.go` tick: scan the pods in discovery order,
skipping pods whose probe fails, and stop (`break`) at the first pod whose
probed status has `Initialized == true`. -/
def anyInitializedScan (probe : String → Except String VaultStatus) :
    List String → Bool
  | [] => false
  | p :: rest =>
    match probe p with
    | .error _ => anyInitializedScan probe rest
    | .ok s => if s.initialized then true else anyInitializedScan probe rest

/-- Addresses for which `src/main.go` calls `Initialize` during one tick:
none when the pod list is empty or some pod probed as initialized,
otherwise exactly the first pod of the discovery result. -/
def initTargetsMainGo (probe : String → Except String VaultStatus) :
    List String → List String
  | [] => []
  | p :: rest => if anyInitializedScan probe (p :: rest) then [] else [p]

/-- Oracles consumed by one `src/main.go` tick. -/
structure MainGoOracles where
  probe : String → Except String VaultStatus
  initRespond : InitRequest → HttpResult InitResponse
  createUnsealKeys : Except String Unit
  createRootToken : Except String Unit
  getUnsealSecret : Except String (List (String × String))

/-- How one `src/main.go` tick ends: every branch sleeps and retries, none
terminates the process. `unsealPhase` means the tick reached the per-pod
seal check loop. -/
inductive MainGoTick where
  | noPods
  | initFailed
  | persistUnsealKeysFailed
  | persistRootTokenFailed
  | secretFetchFailed
  | unsealPhase
deriving Repr, DecidableEq

/-- Embedding of the `src/main.go` loop body up to the per-pod seal check:
scan for an initialized pod; if none, initialize the first pod and persist
the unseal-keys secret and then the root-token secret, aborting the tick on
any failure; then fetch the unseal-keys secret and enter the seal check
loop. -/
def tickMainGo (o : MainGoOracles) (pods : List String) : MainGoTick :=
  match pods with
  | [] => .noPods
  | _ :: _ =>
    let withSecret : MainGoTick :=
      match o.getUnsealSecret with
      | .error _ => .secretFetchFailed
      | .ok _ => .unsealPhase
    if anyInitializedScan o.probe pods then withSecret
    else
      match (initializePkg o.initRespond).2 with
      | .error _ => .initFailed
      | .ok _ =>
        match o.createUnsealKeys with
        | .error _ => .persistUnsealKeysFailed
        | .ok _ =>
          match o.createRootToken with
          | .error _ => .persistRootTokenFailed
          | .ok _ => withSecret

/-! ## Reconciliation Loop, part_008 variant -/

/-- Key extraction from the fetched secret in the `part_008` main loop:
`for i := 1; i <= 3; i++`, skipping (`continue`) indices missing from the
secret data. -/
def collectSecretKeys (data : List (String × String)) : List String :=
  ([1, 2, 3] : List Nat).filterMap (fun i => data.lookup ("key" ++ toString i))

/-- The apply loop over secret-stored keys in the `part_008` main loop:
post each key via `unsealWithKey`, `break`-ing at the first error (the
error itself is only logged). Returns the keys posted in order. -/
def applySecretKeysLoop (respond : Nat → String → HttpResult UnsealResponse) :
    Nat → List String → List String
  | _, [] => []
  | i, key :: rest =>
    match unsealWithKeyBare (respond i key) with
    | .error _ => [key]
    | .ok _ => key :: applySecretKeysLoop respond (i + 1) rest

/-- Oracles consumed by the `part_008` loop body for a single pod. -/
structure PodOracles where
  health : HttpResult VaultStatus
  initRespond : InitRequest → HttpResult InitResponse
  createUnseal : Except String Unit
  createRoot : Except String Unit
  getUnsealSecret : Except String (List (String × String))
  unsealRespond : Nat → String → HttpResult UnsealResponse
  readFile : String → Except String String
  envKeysDir : String

/-- Which branch of the `part_008` per-pod loop body ran, with its trace. -/
inductive PodStep where
  | probeFailed
  | initBranch (trace : InitVaultTrace) (outcome : InitVaultOutcome)
  | unsealFromSecret (keysPosted : List String)
  | unsealFallback (pathsRead : List String) (keysPosted : List String)
      (result : Except String Unit)
  | healthy
deriving Repr

/-- Embedding of the `part_008` main-loop body for one pod: probe; on probe
failure skip; if not initialized run `initializeVault`; else if sealed,
fetch the unseal-keys secret and apply its keys, falling back to the
key-file path when the fetch fails; else the pod is healthy. -/
def tickPod808 (o : PodOracles) : PodStep :=
  match checkVaultStatus o.health with
  | .error _ => .probeFailed
  | .ok status =>
    if ¬ status.initialized then
      let p := initializeVault808 o.initRespond o.createUnseal o.createRoot o.unsealRespond
      .initBranch p.1 p.2
    else if status.sealed then
      match o.getUnsealSecret with
      | .error _ =>
        let p := unsealVaultFallback o.readFile o.unsealRespond o.envKeysDir
        .unsealFallback p.1 p.2.1 p.2.2
      | .ok data =>
        .unsealFromSecret (applySecretKeysLoop o.unsealRespond 0 (collectSecretKeys data))
    else .healthy

/-- One full `part_008` tick: the per-pod body applied to each discovered
pod in discovery order. -/
def tick808 (oracles : String → PodOracles) (pods : List String) :
    List (String × PodStep) :=
  pods.map (fun p => (p, tickPod808 (oracles p)))

/-- Whether a per-pod step attempted initialization. -/
def initInvoked : PodStep → Bool
  | .initBranch _ _ => true
  | _ => false

/-- Whether a per-pod step entered the sealed branch (either unseal path). -/
def isUnsealBranch : PodStep → Bool
  | .unsealFromSecret _ => true
  | .unsealFallback _ _ _ => true
  | _ => false

/-! ## Readiness Reporter -/

/-- The `allReady` accumulator loop of `pkg/server` `handleReady`: a probe
error or a sealed status sets `allReady` to `false` and `continue`s; the
`Initialized` flag is never consulted. -/
def allReadyPkgLoop (probe : String → Except String VaultStatus) (acc : Bool) :
    List String → Bool
  | [] => acc
  | p :: rest =>
    match probe p with
    | .error _ => allReadyPkgLoop probe false rest
    | .ok s =>
      if s.sealed then allReadyPkgLoop probe false rest
      else allReadyPkgLoop probe acc rest

/-- Embedding of `pkg/server` `Server.handleReady`: 503 when discovery
fails, otherwise 200 exactly when the `allReady` loop ends `true`. -/
def handleReadyPkg (podsResult : Except String (List String))
    (probe : String → Except String VaultStatus) : Int :=
  match podsResult with
  | .error _ => 503
  | .ok pods => if allReadyPkgLoop probe true pods then 200 else 503

/-- The `allReady` loop of the `/ready` handler in
`auto-unseal-controller.go` and `part_008`: a probe error, an
uninitialized status, or a sealed status sets `allReady` to `false` and
`break`s. -/
def allReady808Loop (probe : String → Except String VaultStatus) :
    List String → Bool
  | [] => true
  | p :: rest =>
    match probe p with
    | .error _ => false
    | .ok s =>
      if ¬ s.initialized || s.sealed then false
      else allReady808Loop probe rest

/-- Embedding of the `/ready` handler of `auto-unseal-controller.go` and
`part_008`: 503 when discovery fails, otherwise 200 exactly when every pod
probes initialized and unsealed. -/
def handleReady808 (podsResult : Except String (List String))
    (probe : String → Except String VaultStatus) : Int :=
  match podsResult with
  | .error _ => 503
  | .ok pods => if allReady808Loop probe pods then 200 else 503

/-! ## Configuration (pkg/config) -/

/-- Embedding of `pkg/config` `getEnvOrDefault`. The environment is a total
map from variable names to values, with `""` for unset variables, exactly
as `os.Getenv` reports it. -/
def getEnvOrDefault (env : String → String) (key defaultValue : String) : String :=
  if env key ≠ "" then env key else defaultValue

/-- Go `strconv.Atoi` on a 64-bit platform: an optional sign followed by at
least one decimal digit, with the resulting value required to fit in a
signed 64-bit integer (`strconv.ErrRange` otherwise). -/
def goAtoi (s : String) : Option Int :=
  let signed : Bool × List Char :=
    match s.data with
    | '-' :: rest => (true, rest)
    | '+' :: rest => (false, rest)
    | cs => (false, cs)
  match signed with
  | (neg, ds) =>
    if ds.isEmpty then none
    else if ds.all Char.isDigit then
      let n : Nat := ds.foldl (fun acc c => acc * 10 + (c.toNat - 48)) 0
      let v : Int := if neg then -(n : Int) else (n : Int)
      if -(2 ^ 63) ≤ v ∧ v < 2 ^ 63 then some v else none
    else none

/-- Embedding of `pkg/config` `getEnvAsIntOrDefault`: the default is used
when the variable is unset/empty or `strconv.Atoi` fails. -/
def getEnvAsIntOrDefault (env : String → String) (key : String)
    (defaultValue : Int) : Int :=
  if env key ≠ "" then
    match goAtoi (env key) with
    | some v => v
    | none => defaultValue
  else defaultValue

/-- Two's-complement wrap-around of Go `int64` arithmetic. -/
def int64Wrap (x : Int) : Int :=
  (x + 2 ^ 63) % 2 ^ 64 - 2 ^ 63

/-- Go `time.Second` in nanoseconds. -/
def goSecond : Int := 1000000000

/-- Embedding of `pkg/config` `Config`; `CheckInterval` is a
`time.Duration`, an `int64` count of nanoseconds. -/
structure Config where
  vaultNamespace : String
  vaultPort : String
  checkIntervalNs : Int
deriving Repr, DecidableEq

/-- Embedding of `pkg/config` `LoadConfig` (the inline configuration block
of `auto-unseal-controller.go` / `part_008` `main` computes the same three
values): defaults `"vault"`, `"8200"` and 10 seconds; the parsed interval
is multiplied by `time.Second` in wrapping `int64` arithmetic. -/
def loadConfig (env : String → String) : Config :=
  { vaultNamespace := getEnvOrDefault env "VAULT_NAMESPACE" "vault"
    vaultPort := getEnvOrDefault env "VAULT_PORT" "8200"
    checkIntervalNs := int64Wrap (getEnvAsIntOrDefault env "CHECK_INTERVAL" 10 * goSecond) }

/-! ## Helper lemmas -/

/-- An `Except _ Unit` value is `exceptOk` exactly when it is `ok ()`. -/
theorem exceptOk_iff_ok {ε : Type} (e : Except ε Unit) :
    exceptOk e = true ↔ e = .ok () := by
  cases e with
  | ok a => cases a; simp [exceptOk]
  | error e => simp [exceptOk]

/-- An `Except` value is not `exceptOk` exactly when it is an error. -/
theorem exceptOk_false_iff {ε α : Type} (e : Except ε α) :
    exceptOk e = false ↔ ∃ m, e = .error m := by
  cases e with
  | ok a => simp [exceptOk]
  | error m => simp [exceptOk]

/-! ## C1: status classification by the Prober -/

/-- C1 counterexample: 503 (sealed) is one of the six recognized health
codes and carries a decodable status body, yet both `checkVaultStatus`
(the controller prober, which queries `/v1/sys/health`) and the
`pkg/vault` `Client.CheckStatus` reject it, so the claim that `CheckStatus`
accepts every response with a code in {200, 429, 472, 473, 501, 503} is
false of those two probers. -/
theorem c1_counterexample :
    validHealthCode 503 = true ∧
    exceptOk (checkVaultStatus
      (HttpResult.response ⟨503, Body.decoded ⟨true, true⟩⟩)) = false ∧
    exceptOk (checkStatusPkg
      (HttpResult.response ⟨503, Body.decoded ⟨true, true⟩⟩)) = false := by
  decide

/-- C1 (amended): the `part_005` `Client.CheckStatus` returns the decoded
status without error for every response whose code is one of
200, 429, 472, 473, 501, 503, and a `ProbeError` for every other code, for
every undecodable body, and for every transport failure; the
`auto-unseal-controller.go`/`part_008` `checkVaultStatus` and the
`pkg/vault` `Client.CheckStatus` instead accept only status 200. -/
theorem c1_status_classification :
    (∀ (code : Int) (s : VaultStatus), validHealthCode code = true →
        checkStatusHealthMulti (HttpResult.response ⟨code, Body.decoded s⟩) = .ok s) ∧
    (∀ (code : Int) (b : Body VaultStatus), validHealthCode code = false →
        exceptOk (checkStatusHealthMulti (HttpResult.response ⟨code, b⟩)) = false) ∧
    (∀ code : Int,
        exceptOk (checkStatusHealthMulti
          (HttpResult.response ⟨code, Body.undecodable⟩)) = false) ∧
    (∀ m : String,
        exceptOk (checkStatusHealthMulti (HttpResult.transportError m)) = false) ∧
    (∀ (code : Int) (s : VaultStatus), code ≠ 200 →
        exceptOk (checkVaultStatus (HttpResult.response ⟨code, Body.decoded s⟩)) = false ∧
        exceptOk (checkStatusPkg (HttpResult.response ⟨code, Body.decoded s⟩)) = false) ∧
    (∀ s : VaultStatus,
        checkVaultStatus (HttpResult.response ⟨200, Body.decoded s⟩) = .ok s ∧
        checkStatusPkg (HttpResult.response ⟨200, Body.decoded s⟩) = .ok s) := by
  refine ⟨?_, ?_, ?_, ?_, ?_, ?_⟩
  · intro code s h
    simp [checkStatusHealthMulti, h]
  · intro code b h
    simp [checkStatusHealthMulti, h, exceptOk]
  · intro code
    by_cases h : validHealthCode code = true <;>
      simp [checkStatusHealthMulti, h, exceptOk]
  · intro m
    simp [checkStatusHealthMulti, exceptOk]
  · intro code s h
    constructor <;> simp [checkVaultStatus, checkStatusPkg, h, exceptOk]
  · intro s
    constructor <;> simp [checkVaultStatus, checkStatusPkg]

/-- C1 witness: the amended classification evaluated at 429 (standby,
accepted with its decoded body by the `part_005` prober), at 404 (rejected),
and at 429 against the 200-only probers (rejected). -/
theorem c1_status_classification_witness :
    checkStatusHealthMulti
        (HttpResult.response ⟨429, Body.decoded ⟨true, false⟩⟩) = .ok ⟨true, false⟩ ∧
    exceptOk (checkStatusHealthMulti
        (HttpResult.response ⟨404, Body.decoded ⟨true, false⟩⟩)) = false ∧
    exceptOk (checkVaultStatus
        (HttpResult.response ⟨429, Body.decoded ⟨true, false⟩⟩)) = false :=
  ⟨c1_status_classification.1 429 ⟨true, false⟩ (by decide),
    c1_status_classification.2.1 404 (Body.decoded ⟨true, false⟩) (by decide),
    (c1_status_classification.2.2.2.2.1 429 ⟨true, false⟩ (by decide)).1⟩

/-! ## C2: at most one initialization per tick -/

/-- If some pod in the list probes as initialized, the phase-1 scan of
`src/main.go` reports `true`. -/
theorem anyInitializedScan_of_mem (probe : String → Except String VaultStatus)
    (pods : List String) (p : String) (s : VaultStatus)
    (hp : p ∈ pods) (hs : probe p = .ok s) (hi : s.initialized = true) :
    anyInitializedScan probe pods = true := by
  induction pods with
  | nil => cases hp
  | cons q rest ih =>
    rcases List.mem_cons.mp hp with h | h
    · subst h
      simp [anyInitializedScan, hs, hi]
    · cases hq : probe q with
      | error m => simpa [anyInitializedScan, hq] using ih h
      | ok t =>
        by_cases ht : t.initialized = true <;>
          simp [anyInitializedScan, hq, ht, ih h]

/-- Oracles for the C2 counterexample tick: pod `A` probes initialized and
unsealed, pod `B` probes uninitialized; `B`'s init transport fails. -/
def c2Oracles (pod : String) : PodOracles :=
  { health :=
      if pod = "A" then HttpResult.response ⟨200, Body.decoded ⟨false, true⟩⟩
      else HttpResult.response ⟨200, Body.decoded ⟨false, false⟩⟩
    initRespond := fun _ => HttpResult.transportError "connection refused"
    createUnseal := .ok ()
    createRoot := .ok ()
    getUnsealSecret := .error "not found"
    unsealRespond := fun _ _ => HttpResult.transportError "connection refused"
    readFile := fun _ => .error "no such file"
    envKeysDir := "" }

/-- C2 counterexample: in a `part_008` tick over pods `A` and `B` where `A`
probes `initialized = true` and `B` probes `initialized = false`, the loop
still invokes initialization for `B`, contradicting the claim that the
Coordinator is never invoked for `B` in that situation. -/
theorem c2_counterexample :
    checkVaultStatus (c2Oracles "A").health = .ok ⟨false, true⟩ ∧
    checkVaultStatus (c2Oracles "B").health = .ok ⟨false, false⟩ ∧
    (tick808 c2Oracles ["A", "B"]).map (fun p => (p.1, initInvoked p.2)) =
      [("A", false), ("B", true)] := by
  refine ⟨rfl, rfl, rfl⟩

/-- C2 (amended): the `src/main.go` loop issues at most one initialization
call per tick, and none at all as soon as any pod probes
`initialized == true`; when no pod probes initialized it initializes
exactly the first discovered pod. The `part_008` loop instead runs the
initialization path for every pod that probes uninitialized, so with `A`
initialized and `B` uninitialized the Coordinator is invoked for `B`. -/
theorem c2_single_init_election :
    (∀ (probe : String → Except String VaultStatus) (pods : List String),
        (initTargetsMainGo probe pods).length ≤ 1) ∧
    (∀ (probe : String → Except String VaultStatus) (pods : List String)
        (p : String) (s : VaultStatus), p ∈ pods → probe p = .ok s →
        s.initialized = true → initTargetsMainGo probe pods = []) ∧
    (∀ (probe : String → Except String VaultStatus) (p : String)
        (rest : List String), anyInitializedScan probe (p :: rest) = false →
        initTargetsMainGo probe (p :: rest) = [p]) ∧
    (∀ (o : PodOracles) (s : VaultStatus), checkVaultStatus o.health = .ok s →
        s.initialized = false → initInvoked (tickPod808 o) = true) := by
  refine ⟨?_, ?_, ?_, ?_⟩
  · intro probe pods
    cases pods with
    | nil => simp [initTargetsMainGo]
    | cons p rest =>
      by_cases h : anyInitializedScan probe (p :: rest) = true <;>
        simp [initTargetsMainGo, h]
  · intro probe pods p s hp hs hi
    cases pods with
    | nil => cases hp
    | cons q rest =>
      simp [initTargetsMainGo, anyInitializedScan_of_mem probe (q :: rest) p s hp hs hi]
  · intro probe p rest h
    simp [initTargetsMainGo, h]
  · intro o s hs hi
    simp [tickPod808, hs, hi, initInvoked]

/-- C2 witness: the amended statement evaluated on a two-pod tick where the
second pod probes initialized: `src/main.go` initializes nothing, while the
`part_008` loop initializes the uninitialized pod `B`. -/
theorem c2_single_init_election_witness :
    initTargetsMainGo (fun p => if p = "B" then .ok ⟨false, true⟩ else .ok ⟨true, false⟩)
        ["A", "B"] = [] ∧
    initInvoked (tickPod808 (c2Oracles "B")) = true :=
  ⟨c2_single_init_election.2.1
      (fun p => if p = "B" then .ok ⟨false, true⟩ else .ok ⟨true, false⟩)
      ["A", "B"] "B" ⟨false, true⟩ (by decide) rfl rfl,
    c2_single_init_election.2.2.2 (c2Oracles "B") ⟨false, false⟩ rfl rfl⟩

/-! ## C3: key ordering and short-circuit in the Unseal Executor -/

/-- The keys posted by the `pkg/vault` key loop form an in-order initial
segment of the input sequence. -/
theorem unsealKeysLoopPkg_take (respond : Nat → String → HttpResult UnsealResponse)
    (keys : List String) : ∀ n : Nat,
    (unsealKeysLoopPkg respond n keys).1 =
      keys.take (unsealKeysLoopPkg respond n keys).1.length := by
  induction keys with
  | nil => intro n; simp [unsealKeysLoopPkg]
  | cons k rest ih =>
    intro n
    cases h : unsealWithKeyPkg (respond n k) with
    | error e => simp [unsealKeysLoopPkg, h]
    | ok u =>
      simp only [unsealKeysLoopPkg, h]
      simp only [List.length_cons, List.take_succ_cons]
      exact congrArg (List.cons k) (ih (n + 1))

/-- When the `pkg/vault` key loop returns without error, every input key
was posted. -/
theorem unsealKeysLoopPkg_ok_all (respond : Nat → String → HttpResult UnsealResponse)
    (keys : List String) : ∀ n : Nat,
    exceptOk (unsealKeysLoopPkg respond n keys).2 = true →
    (unsealKeysLoopPkg respond n keys).1 = keys := by
  induction keys with
  | nil => intro n _; simp [unsealKeysLoopPkg]
  | cons k rest ih =>
    intro n h
    cases hc : unsealWithKeyPkg (respond n k) with
    | error e => simp [unsealKeysLoopPkg, hc, exceptOk] at h
    | ok u =>
      simp only [unsealKeysLoopPkg, hc] at h ⊢
      simpa using ih (n + 1) h

/-- When the first failing call of the `pkg/vault` key loop is the one at
position `i`, exactly the first `i + 1` keys are posted and the loop
returns an error: no key after the failed one is applied. -/
theorem unsealKeysLoopPkg_stop (respond : Nat → String → HttpResult UnsealResponse)
    (keys : List String) : ∀ n i : Nat,
    i < keys.length →
    (∀ j, j < i → exceptOk (unsealWithKeyPkg (respond (n + j) (keys.getD j ""))) = true) →
    exceptOk (unsealWithKeyPkg (respond (n + i) (keys.getD i ""))) = false →
    (unsealKeysLoopPkg respond n keys).1 = keys.take (i + 1) ∧
    exceptOk (unsealKeysLoopPkg respond n keys).2 = false := by
  induction keys with
  | nil => intro n i h; simp at h
  | cons k rest ih =>
    intro n i hlen hpre hfail
    cases i with
    | zero =>
      simp only [List.getD_cons_zero, Nat.add_zero] at hfail
      obtain ⟨m, hm⟩ := (exceptOk_false_iff _).mp hfail
      simp [unsealKeysLoopPkg, hm, exceptOk]
    | succ m =>
      have h0 : unsealWithKeyPkg (respond n k) = .ok () := by
        have := hpre 0 (Nat.succ_pos m)
        simpa [exceptOk_iff_ok] using this
      have hpre' : ∀ j, j < m →
          exceptOk (unsealWithKeyPkg (respond (n + 1 + j) (rest.getD j ""))) = true := by
        intro j hj
        have h2 := hpre (j + 1) (Nat.succ_lt_succ hj)
        rw [List.getD_cons_succ, show n + (j + 1) = n + 1 + j by omega] at h2
        exact h2
      have hfail' :
          exceptOk (unsealWithKeyPkg (respond (n + 1 + m) (rest.getD m ""))) = false := by
        rw [List.getD_cons_succ, show n + (m + 1) = n + 1 + m by omega] at hfail
        exact hfail
      have hlen' : m < rest.length := Nat.lt_of_succ_lt_succ hlen
      obtain ⟨htr, hres⟩ := ih (n + 1) m hlen' hpre' hfail'
      simp [unsealKeysLoopPkg, h0, htr, hres]

/-- Success condition of a single iteration of the `unsealVault` apply
loop: a transport success with status 200 and a decodable body. -/
def applyCallOk (r : HttpResult UnsealResponse) : Bool :=
  match r with
  | .transportError _ => false
  | .response hr =>
    if hr.statusCode ≠ 200 then false
    else
      match hr.body with
      | .undecodable => false
      | .decoded _ => true

/-- A successful iteration of the `unsealVault` apply loop posts its key
and continues with the rest. -/
theorem applyKeysLoop_cons_ok (respond : Nat → String → HttpResult UnsealResponse)
    (n : Nat) (k : String) (rest : List String)
    (h : applyCallOk (respond n k) = true) :
    applyKeysLoop respond n (k :: rest) =
      (k :: (applyKeysLoop respond (n + 1) rest).1,
        (applyKeysLoop respond (n + 1) rest).2) := by
  cases hr : respond n k with
  | transportError m => simp [applyCallOk, hr] at h
  | response r =>
    by_cases hc : r.statusCode = 200
    · cases hb : r.body with
      | undecodable => simp [applyCallOk, hr, hc, hb] at h
      | decoded u => simp [applyKeysLoop, hr, hc, hb]
    · simp [applyCallOk, hr, hc] at h

/-- A failing iteration of the `unsealVault` apply loop posts its key and
stops with an error. -/
theorem applyKeysLoop_cons_fail (respond : Nat → String → HttpResult UnsealResponse)
    (n : Nat) (k : String) (rest : List String)
    (h : applyCallOk (respond n k) = false) :
    (applyKeysLoop respond n (k :: rest)).1 = [k] ∧
    exceptOk (applyKeysLoop respond n (k :: rest)).2 = false := by
  cases hr : respond n k with
  | transportError m => simp [applyKeysLoop, hr, exceptOk]
  | response r =>
    by_cases hc : r.statusCode = 200
    · cases hb : r.body with
      | undecodable => simp [applyKeysLoop, hr, hc, hb, exceptOk]
      | decoded u => simp [applyCallOk, hr, hc, hb] at h
    · simp [applyKeysLoop, hr, hc, exceptOk]

/-- The keys posted by the `unsealVault` apply loop form an in-order
initial segment of the input sequence. -/
theorem applyKeysLoop_take (respond : Nat → String → HttpResult UnsealResponse)
    (keys : List String) : ∀ n : Nat,
    (applyKeysLoop respond n keys).1 =
      keys.take (applyKeysLoop respond n keys).1.length := by
  induction keys with
  | nil => intro n; simp [applyKeysLoop]
  | cons k rest ih =>
    intro n
    cases h : applyCallOk (respond n k) with
    | false =>
      obtain ⟨h1, _⟩ := applyKeysLoop_cons_fail respond n k rest h
      simp [h1]
    | true =>
      rw [applyKeysLoop_cons_ok respond n k rest h]
      simp only [List.length_cons, List.take_succ_cons]
      exact congrArg (List.cons k) (ih (n + 1))

/-- When the `unsealVault` apply loop returns without error, every key was
posted. -/
theorem applyKeysLoop_ok_all (respond : Nat → String → HttpResult UnsealResponse)
    (keys : List String) : ∀ n : Nat,
    exceptOk (applyKeysLoop respond n keys).2 = true →
    (applyKeysLoop respond n keys).1 = keys := by
  induction keys with
  | nil => intro n _; simp [applyKeysLoop]
  | cons k rest ih =>
    intro n h
    cases hc : applyCallOk (respond n k) with
    | false =>
      obtain ⟨_, h2⟩ := applyKeysLoop_cons_fail respond n k rest hc
      rw [h] at h2
      cases h2
    | true =>
      rw [applyKeysLoop_cons_ok respond n k rest hc] at h ⊢
      simpa using ih (n + 1) h

/-- When the first failing call of the `unsealVault` apply loop is the one
at position `i`, exactly the first `i + 1` keys are posted and the loop
returns an error. -/
theorem applyKeysLoop_stop (respond : Nat → String → HttpResult UnsealResponse)
    (keys : List String) : ∀ n i : Nat,
    i < keys.length →
    (∀ j, j < i → applyCallOk (respond (n + j) (keys.getD j "")) = true) →
    applyCallOk (respond (n + i) (keys.getD i "")) = false →
    (applyKeysLoop respond n keys).1 = keys.take (i + 1) ∧
    exceptOk (applyKeysLoop respond n keys).2 = false := by
  induction keys with
  | nil => intro n i h; simp at h
  | cons k rest ih =>
    intro n i hlen hpre hfail
    cases i with
    | zero =>
      simp only [List.getD_cons_zero, Nat.add_zero] at hfail
      obtain ⟨h1, h2⟩ := applyKeysLoop_cons_fail respond n k rest hfail
      simp [h1, h2]
    | succ m =>
      have h0 : applyCallOk (respond n k) = true := by
        simpa using hpre 0 (Nat.succ_pos m)
      have hpre' : ∀ j, j < m →
          applyCallOk (respond (n + 1 + j) (rest.getD j "")) = true := by
        intro j hj
        have h2 := hpre (j + 1) (Nat.succ_lt_succ hj)
        rw [List.getD_cons_succ, show n + (j + 1) = n + 1 + j by omega] at h2
        exact h2
      have hfail' : applyCallOk (respond (n + 1 + m) (rest.getD m "")) = false := by
        rw [List.getD_cons_succ, show n + (m + 1) = n + 1 + m by omega] at hfail
        exact hfail
      have hlen' : m < rest.length := Nat.lt_of_succ_lt_succ hlen
      obtain ⟨htr, hres⟩ := ih (n + 1) m hlen' hpre' hfail'
      rw [applyKeysLoop_cons_ok respond n k rest h0]
      simp [htr, hres]

/-- C3: both unseal-key loops (`pkg/vault` `Client.UnsealWithKeysFromDir`
over a key slice, and the apply loop of `unsealVault` / `part_005`
`UnsealWithKeysFromDir`) issue unseal calls in exactly the sequence order —
the posted keys are always an in-order initial segment of the sequence, and
all of it on success — and stop at the first failing application: when the
call at position `i` is the first failure, exactly the keys at positions
`0..i` are posted and an error is returned. -/
theorem c3_key_ordering :
    (∀ (respond : Nat → String → HttpResult UnsealResponse) (keys : List String),
        (unsealWithKeysFromDirPkg respond keys).1 =
          keys.take (unsealWithKeysFromDirPkg respond keys).1.length) ∧
    (∀ (respond : Nat → String → HttpResult UnsealResponse) (keys : List String),
        exceptOk (unsealWithKeysFromDirPkg respond keys).2 = true →
        (unsealWithKeysFromDirPkg respond keys).1 = keys) ∧
    (∀ (respond : Nat → String → HttpResult UnsealResponse) (keys : List String)
        (i : Nat), i < keys.length →
        (∀ j, j < i → exceptOk (unsealWithKeyPkg (respond j (keys.getD j ""))) = true) →
        exceptOk (unsealWithKeyPkg (respond i (keys.getD i ""))) = false →
        (unsealWithKeysFromDirPkg respond keys).1 = keys.take (i + 1) ∧
        exceptOk (unsealWithKeysFromDirPkg respond keys).2 = false) ∧
    (∀ (respond : Nat → String → HttpResult UnsealResponse) (keys : List String),
        (applyKeysLoop respond 0 keys).1 =
          keys.take (applyKeysLoop respond 0 keys).1.length) ∧
    (∀ (respond : Nat → String → HttpResult UnsealResponse) (keys : List String)
        (i : Nat), i < keys.length →
        (∀ j, j < i → applyCallOk (respond j (keys.getD j "")) = true) →
        applyCallOk (respond i (keys.getD i "")) = false →
        (applyKeysLoop respond 0 keys).1 = keys.take (i + 1) ∧
        exceptOk (applyKeysLoop respond 0 keys).2 = false) := by
  refine ⟨?_, ?_, ?_, ?_, ?_⟩
  · intro respond keys
    exact unsealKeysLoopPkg_take respond keys 0
  · intro respond keys h
    exact unsealKeysLoopPkg_ok_all respond keys 0 h
  · intro respond keys i hlen hpre hfail
    have := unsealKeysLoopPkg_stop respond keys 0 i hlen
    simp only [Nat.zero_add] at this
    exact this hpre hfail
  · intro respond keys
    exact applyKeysLoop_take respond keys 0
  · intro respond keys i hlen hpre hfail
    have := applyKeysLoop_stop respond keys 0 i hlen
    simp only [Nat.zero_add] at this
    exact this hpre hfail

/-- Transport oracle for the C3 witness: the second unseal call (index 1)
fails at the transport level, all others succeed. -/
def c3Respond : Nat → String → HttpResult UnsealResponse := fun n _ =>
  if n = 1 then HttpResult.transportError "connection reset"
  else HttpResult.response ⟨200, Body.decoded ⟨true⟩⟩

/-- C3 witness: for shares `["a", "b", "c"]` with the second call failing,
exactly `["a", "b"]` are posted — no third call is made — and an error is
surfaced. -/
theorem c3_key_ordering_witness :
    (unsealWithKeysFromDirPkg c3Respond ["a", "b", "c"]).1 = ["a", "b"] ∧
    exceptOk (unsealWithKeysFromDirPkg c3Respond ["a", "b", "c"]).2 = false := by
  have h := c3_key_ordering.2.2.1 c3Respond ["a", "b", "c"] 1 (by decide)
    (by decide) (by decide)
  simpa using h

/-! ## C4: per-key success condition of the Unseal Executor -/

/-- C4 counterexample: 201 is a 2xx status code, yet a single key
application returns an error for it in both `UnsealWithKey` variants, so
success is not "any 2xx" as claimed. -/
theorem c4_counterexample :
    ((200 : Int) ≤ 201 ∧ (201 : Int) < 300) ∧
    exceptOk (unsealWithKeyPkg
      (HttpResult.response ⟨201, Body.decoded ⟨true⟩⟩)) = false ∧
    exceptOk (unsealWithKeyBare
      (HttpResult.response ⟨201, Body.decoded ⟨true⟩⟩)) = false := by
  decide

/-- C4 (amended): a single key application by the `pkg/vault`
`Client.UnsealWithKey` succeeds exactly when the response is a transport
success with status exactly 200 and a decodable body — in particular a
decoded body reporting `sealed = true` is not an error, and neither is
`sealed = false`; the `part_005`/`part_008` `unsealWithKey` succeeds
exactly when the response is a transport success with status exactly 200
(the body is not read). -/
theorem c4_per_key_semantics :
    (∀ r : HttpResult UnsealResponse, exceptOk (unsealWithKeyPkg r) = true ↔
        ∃ hr, r = HttpResult.response hr ∧ hr.statusCode = 200 ∧
          ∃ u, hr.body = Body.decoded u) ∧
    (∀ b : Bool,
        unsealWithKeyPkg (HttpResult.response ⟨200, Body.decoded ⟨b⟩⟩) = .ok ()) ∧
    (∀ r : HttpResult UnsealResponse, exceptOk (unsealWithKeyBare r) = true ↔
        ∃ hr, r = HttpResult.response hr ∧ hr.statusCode = 200) := by
  refine ⟨?_, ?_, ?_⟩
  · intro r
    cases r with
    | transportError m => simp [unsealWithKeyPkg, exceptOk]
    | response hr =>
      by_cases hc : hr.statusCode = 200
      · cases hb : hr.body with
        | undecodable => simp [unsealWithKeyPkg, hc, hb, exceptOk]
        | decoded u =>
          cases u with
          | mk s =>
            cases s <;> simp [unsealWithKeyPkg, hc, hb, exceptOk]
      · simp [unsealWithKeyPkg, hc, exceptOk]
  · intro b
    cases b <;> simp [unsealWithKeyPkg]
  · intro r
    cases r with
    | transportError m => simp [unsealWithKeyBare, exceptOk]
    | response hr =>
      by_cases hc : hr.statusCode = 200 <;> simp [unsealWithKeyBare, hc, exceptOk]

/-- C4 witness: a 200 response whose body decodes to `sealed = true` is
accepted without error, and a 200 response with `sealed = false` likewise. -/
theorem c4_per_key_semantics_witness :
    unsealWithKeyPkg (HttpResult.response ⟨200, Body.decoded ⟨true⟩⟩) = .ok () ∧
    unsealWithKeyPkg (HttpResult.response ⟨200, Body.decoded ⟨false⟩⟩) = .ok () :=
  ⟨c4_per_key_semantics.2.1 true, c4_per_key_semantics.2.1 false⟩

/-! ## C5: create-only persistence, no update fallback -/

/-- C5 counterexample: with the `vault-unseal-keys` record already present
in the store, `CreateUnsealKeySecret` issues only a create, surfaces the
duplicate-create error, and performs no update — contradicting the claim
that on a duplicate-create error the adapter performs an update rather
than surfacing the error. -/
theorem c5_counterexample :
    (createUnsealKeySecret ["vault-unseal-keys"]).1 =
      [StoreOp.createOp "vault-unseal-keys"] ∧
    exceptOk (createUnsealKeySecret ["vault-unseal-keys"]).2 = false ∧
    StoreOp.updateOp "vault-unseal-keys" ∉ (createUnsealKeySecret ["vault-unseal-keys"]).1 := by
  refine ⟨rfl, rfl, by decide⟩

/-- C5 (amended): the persistence path issues exactly one create per
record and never an update; when the record already exists, the
duplicate-create error is surfaced to the caller (in `part_008`
`initializeVault` it aborts the run), and only a create against a store
without the record succeeds. At-most-once creation is not enforced by a
create-then-update fallback. -/
theorem c5_create_only :
    (∀ (store : List String) (name : String),
        (createSecret store name).1 = [StoreOp.createOp name]) ∧
    (∀ (store : List String) (name : String), store.contains name = true →
        exceptOk (createSecret store name).2 = false) ∧
    (∀ (store : List String) (name u : String),
        StoreOp.updateOp u ∉ (createSecret store name).1) ∧
    (∀ (store : List String) (name : String), store.contains name = false →
        (createSecret store name).2 = .ok (store ++ [name])) ∧
    (∀ (ir : InitRequest → HttpResult InitResponse) (cr : Except String Unit)
        (ur : Nat → String → HttpResult UnsealResponse) (resp : InitResponse)
        (e : String), decodeInitResult (ir initRequestGo) = .ok resp →
        (initializeVault808 ir (.error e) cr ur).2 =
          .errReturn ("failed to create unseal keys secret: " ++ e)) := by
  refine ⟨?_, ?_, ?_, ?_, ?_⟩
  · intro store name
    rfl
  · intro store name h
    have h2 : name ∈ store := by simpa using h
    simp [createSecret, storeCreate, h2, exceptOk]
  · intro store name u
    simp [createSecret]
  · intro store name h
    have h2 : name ∉ store := by simpa using h
    simp [createSecret, storeCreate, h2]
  · intro ir cr ur resp e h
    simp [initializeVault808, h]

/-- C5 witness: against an empty store the create succeeds; against a
store that already holds the record, the error is surfaced. -/
theorem c5_create_only_witness :
    (createSecret [] "vault-root-token").2 = .ok ["vault-root-token"] ∧
    exceptOk (createSecret ["vault-root-token"] "vault-root-token").2 = false :=
  ⟨c5_create_only.2.2.2.1 [] "vault-root-token" (by decide),
    c5_create_only.2.1 ["vault-root-token"] "vault-root-token" (by decide)⟩

/-! ## C6: initialization policy, error behaviour and share application -/

/-- When every single-key application succeeds and at least three keys were
returned, the post-persistence loop of `initializeVault` posts exactly the
first three keys, in order, and completes. -/
theorem applyFirstN_three_ok (ur : Nat → String → HttpResult UnsealResponse)
    (keys : List String)
    (hok : ∀ i k, exceptOk (unsealWithKeyBare (ur i k)) = true)
    (hlen : 3 ≤ keys.length) :
    applyFirstN ur keys 0 3 = (keys.take 3, .okDone) := by
  cases keys with
  | nil => simp at hlen
  | cons a t1 =>
    cases t1 with
    | nil => simp at hlen
    | cons b t2 =>
      cases t2 with
      | nil => simp at hlen
      | cons c rest =>
        have h0 : unsealWithKeyBare (ur 0 a) = .ok () := (exceptOk_iff_ok _).mp (hok 0 a)
        have h1 : unsealWithKeyBare (ur 1 b) = .ok () := (exceptOk_iff_ok _).mp (hok 1 b)
        have h2 : unsealWithKeyBare (ur 2 c) = .ok () := (exceptOk_iff_ok _).mp (hok 2 c)
        simp [applyFirstN, h0, h1, h2]

/-- C6: every initialization request carries exactly
`secret_shares = 5, secret_threshold = 3` (both in the `pkg/vault`
`Client.Initialize` and in `part_008` `initializeVault`); a transport
failure or a non-200 status makes the init call fail; when the init call
fails, `initializeVault` returns an `InitializationError` with neither
secret-create issued and no share applied; on success, with both creates
succeeding, it creates the unseal-keys record and the root-token record
and then applies exactly the first three (threshold) key shares. -/
theorem c6_initialization :
    (∀ respond : InitRequest → HttpResult InitResponse,
        (initializePkg respond).1 = ⟨5, 3⟩) ∧
    (∀ (ir : InitRequest → HttpResult InitResponse) (cu cr : Except String Unit)
        (ur : Nat → String → HttpResult UnsealResponse),
        (initializeVault808 ir cu cr ur).1.sentInitRequests = [⟨5, 3⟩]) ∧
    (∀ m : String, exceptOk (decodeInitResult (.transportError m)) = false) ∧
    (∀ hr : HttpResponse InitResponse, hr.statusCode ≠ 200 →
        exceptOk (decodeInitResult (.response hr)) = false) ∧
    (∀ (ir : InitRequest → HttpResult InitResponse) (cu cr : Except String Unit)
        (ur : Nat → String → HttpResult UnsealResponse) (e : String),
        decodeInitResult (ir initRequestGo) = .error e →
        initializeVault808 ir cu cr ur =
          (⟨[initRequestGo], false, false, []⟩, .errReturn e)) ∧
    (∀ (ir : InitRequest → HttpResult InitResponse)
        (ur : Nat → String → HttpResult UnsealResponse) (resp : InitResponse),
        decodeInitResult (ir initRequestGo) = .ok resp →
        (∀ i k, exceptOk (unsealWithKeyBare (ur i k)) = true) →
        3 ≤ resp.keys.length →
        initializeVault808 ir (.ok ()) (.ok ()) ur =
          (⟨[initRequestGo], true, true, resp.keys.take 3⟩, .okDone)) := by
  refine ⟨?_, ?_, ?_, ?_, ?_, ?_⟩
  · intro respond
    rfl
  · intro ir cu cr ur
    simp only [initializeVault808]
    cases h : decodeInitResult (ir initRequestGo) with
    | error e => rfl
    | ok resp =>
      cases cu with
      | error e => rfl
      | ok u =>
        cases cr with
        | error e => rfl
        | ok v => rfl
  · intro m
    simp [decodeInitResult, exceptOk]
  · intro hr h
    simp [decodeInitResult, h, exceptOk]
  · intro ir cu cr ur e h
    simp [initializeVault808, h]
  · intro ir ur resp h hok hlen
    simp [initializeVault808, h, applyFirstN_three_ok ur resp.keys hok hlen]

/-- Concrete init transport for the C6 witness: a 200 response carrying
five key shares and a root token. -/
def c6InitRespond : InitRequest → HttpResult InitResponse := fun _ =>
  HttpResult.response ⟨200,
    Body.decoded ⟨["k1", "k2", "k3", "k4", "k5"], "root-token"⟩⟩

/-- C6 witness: the happy-path conjunct evaluated on a five-share init
response with all unseal calls succeeding — both records are created and
exactly `["k1", "k2", "k3"]` are applied. -/
theorem c6_initialization_witness :
    initializeVault808 c6InitRespond (.ok ()) (.ok ())
        (fun _ _ => HttpResult.response ⟨200, Body.decoded ⟨true⟩⟩) =
      (⟨[initRequestGo], true, true, ["k1", "k2", "k3"]⟩, .okDone) := by
  have h := c6_initialization.2.2.2.2.2 c6InitRespond
    (fun _ _ => HttpResult.response ⟨200, Body.decoded ⟨true⟩⟩)
    ⟨["k1", "k2", "k3", "k4", "k5"], "root-token"⟩ rfl
    (fun _ _ => rfl) (by decide)
  simpa using h

/-! ## C7: readiness semantics -/

/-- The `pkg/server` readiness accumulator computes the conjunction of its
starting value with the per-pod condition "probe succeeded and not
sealed". -/
theorem allReadyPkgLoop_eq (probe : String → Except String VaultStatus)
    (pods : List String) : ∀ acc : Bool,
    allReadyPkgLoop probe acc pods =
      (acc && pods.all fun p =>
        match probe p with
        | .error _ => false
        | .ok s => !s.sealed) := by
  induction pods with
  | nil => intro acc; simp [allReadyPkgLoop]
  | cons p rest ih =>
    intro acc
    cases hp : probe p with
    | error m => simp [allReadyPkgLoop, hp, ih false]
    | ok s =>
      cases hs : s.sealed <;>
        simp [allReadyPkgLoop, hp, hs, ih false, ih acc, Bool.and_assoc, Bool.and_comm,
          Bool.and_left_comm]

/-- The controller readiness loop computes the conjunction of the per-pod
condition "probe succeeded, initialized, and not sealed". -/
theorem allReady808Loop_eq (probe : String → Except String VaultStatus)
    (pods : List String) :
    allReady808Loop probe pods =
      pods.all fun p =>
        match probe p with
        | .error _ => false
        | .ok s => s.initialized && !s.sealed := by
  induction pods with
  | nil => simp [allReady808Loop]
  | cons p rest ih =>
    cases hp : probe p with
    | error m => simp [allReady808Loop, hp]
    | ok s =>
      cases hi : s.initialized <;> cases hs : s.sealed <;>
        simp [allReady808Loop, hp, hi, hs, ih]

/-- A per-pod readiness condition holds exactly when the probe returned a
decoded status that is initialized and unsealed. -/
theorem podReady808_iff (probe : String → Except String VaultStatus) (p : String) :
    (match probe p with
      | .error _ => false
      | .ok s => s.initialized && !s.sealed) = true ↔
    ∃ s, probe p = .ok s ∧ s.initialized = true ∧ s.sealed = false := by
  cases hp : probe p with
  | error m => simp
  | ok s => simp [Bool.and_eq_true]

/-- A per-pod `pkg/server` readiness condition holds exactly when the
probe returned a decoded status that is unsealed. -/
theorem podReadyPkg_iff (probe : String → Except String VaultStatus) (p : String) :
    (match probe p with
      | .error _ => false
      | .ok s => !s.sealed) = true ↔
    ∃ s, probe p = .ok s ∧ s.sealed = false := by
  cases hp : probe p with
  | error m => simp
  | ok s => simp

/-- C7 counterexample: a pod probing `initialized = false, sealed = false`
still makes the `pkg/server` `/ready` handler answer 200, so that handler
does not return success only when every instance is initialized and
unsealed. -/
theorem c7_counterexample :
    handleReadyPkg (.ok ["10.0.0.1"])
      (fun _ => .ok ⟨false, false⟩) = 200 ∧
    (⟨false, false⟩ : VaultStatus).initialized = false := by
  exact ⟨rfl, rfl⟩

/-- C7 (amended): both `/ready` handlers answer only 200 or 503 and answer
503 whenever discovery fails; the controller handler
(`auto-unseal-controller.go`, `part_008`) answers 200 exactly when every
discovered pod probes initialized and unsealed, while the `pkg/server`
handler answers 200 exactly when every discovered pod probes unsealed,
without consulting the `initialized` flag. -/
theorem c7_readiness :
    (∀ (podsR : Except String (List String))
        (probe : String → Except String VaultStatus),
        handleReady808 podsR probe = 200 ∨ handleReady808 podsR probe = 503) ∧
    (∀ (e : String) (probe : String → Except String VaultStatus),
        handleReady808 (.error e) probe = 503 ∧ handleReadyPkg (.error e) probe = 503) ∧
    (∀ (pods : List String) (probe : String → Except String VaultStatus),
        handleReady808 (.ok pods) probe = 200 ↔
          ∀ p ∈ pods, ∃ s, probe p = .ok s ∧ s.initialized = true ∧ s.sealed = false) ∧
    (∀ (podsR : Except String (List String))
        (probe : String → Except String VaultStatus),
        handleReadyPkg podsR probe = 200 ∨ handleReadyPkg podsR probe = 503) ∧
    (∀ (pods : List String) (probe : String → Except String VaultStatus),
        handleReadyPkg (.ok pods) probe = 200 ↔
          ∀ p ∈ pods, ∃ s, probe p = .ok s ∧ s.sealed = false) := by
  refine ⟨?_, ?_, ?_, ?_, ?_⟩
  · intro podsR probe
    cases podsR with
    | error e => exact Or.inr rfl
    | ok pods =>
      by_cases h : allReady808Loop probe pods = true
      · exact Or.inl (by simp [handleReady808, h])
      · exact Or.inr (by simp [handleReady808, h])
  · intro e probe
    exact ⟨rfl, rfl⟩
  · intro pods probe
    have hloop := allReady808Loop_eq probe pods
    constructor
    · intro h p hp
      have h200 : allReady808Loop probe pods = true := by
        by_contra hfalse
        simp [handleReady808, hfalse] at h
      rw [hloop, List.all_eq_true] at h200
      exact (podReady808_iff probe p).mp (h200 p hp)
    · intro h
      have : allReady808Loop probe pods = true := by
        rw [hloop, List.all_eq_true]
        intro p hp
        exact (podReady808_iff probe p).mpr (h p hp)
      simp [handleReady808, this]
  · intro podsR probe
    cases podsR with
    | error e => exact Or.inr rfl
    | ok pods =>
      by_cases h : allReadyPkgLoop probe true pods = true
      · exact Or.inl (by simp [handleReadyPkg, h])
      · exact Or.inr (by simp [handleReadyPkg, h])
  · intro pods probe
    have hloop := allReadyPkgLoop_eq probe pods true
    constructor
    · intro h p hp
      have h200 : allReadyPkgLoop probe true pods = true := by
        by_contra hfalse
        simp [handleReadyPkg, hfalse] at h
      rw [hloop] at h200
      simp only [Bool.true_and, List.all_eq_true] at h200
      exact (podReadyPkg_iff probe p).mp (h200 p hp)
    · intro h
      have : allReadyPkgLoop probe true pods = true := by
        rw [hloop]
        simp only [Bool.true_and, List.all_eq_true]
        intro p hp
        exact (podReadyPkg_iff probe p).mpr (h p hp)
      simp [handleReadyPkg, this]

/-- C7 witness: a fleet whose single pod probes initialized and unsealed is
reported ready by the controller handler, and one sealed pod makes it
report 503. -/
theorem c7_readiness_witness :
    handleReady808 (.ok ["10.0.0.1"]) (fun _ => .ok ⟨false, true⟩) = 200 ∧
    handleReady808 (.ok ["10.0.0.1"]) (fun _ => .ok ⟨true, true⟩) = 503 := by
  constructor
  · exact (c7_readiness.2.2.1 ["10.0.0.1"] (fun _ => .ok ⟨false, true⟩)).mpr
      (fun p _ => ⟨⟨false, true⟩, rfl, rfl, rfl⟩)
  · rcases c7_readiness.1 (.ok ["10.0.0.1"]) (fun _ => .ok ⟨true, true⟩) with h | h
    · exfalso
      have := (c7_readiness.2.2.1 ["10.0.0.1"] (fun _ => .ok ⟨true, true⟩)).mp h
        "10.0.0.1" (by decide)
      rcases this with ⟨s, hs, _, hsealed⟩
      cases hs
      cases hsealed
    · exact h

/-! ## C8: local key-file fallback -/

/-- When every unseal call succeeds, the `unsealVault` apply loop returns
without error. -/
theorem applyKeysLoop_all_ok (respond : Nat → String → HttpResult UnsealResponse)
    (keys : List String) : ∀ n : Nat,
    (∀ j k, applyCallOk (respond j k) = true) →
    exceptOk (applyKeysLoop respond n keys).2 = true := by
  induction keys with
  | nil => intro n _; simp [applyKeysLoop, exceptOk]
  | cons k rest ih =>
    intro n hall
    rw [applyKeysLoop_cons_ok respond n k rest (hall n k)]
    exact ih (n + 1) hall

/-- C8: the fallback unseal path resolves the configured directory
(defaulting to `/vault/unseal-keys`), reads exactly the files `key1`,
`key2`, `key3` from it when all reads succeed, aborts with an error and
without issuing any unseal call when any of the three reads fails, and on
a successful read applies the three contents as keys via in-order posts
(an initial segment of `[k1, k2, k3]`, all of it when every call
succeeds). -/
theorem c8_fallback_files :
    keysDirOf "" = "/vault/unseal-keys" ∧
    (∀ d : String, d ≠ "" → keysDirOf d = d) ∧
    (∀ (rf : String → Except String String) (dir k1 k2 k3 : String),
        rf (keyFilePath dir 1) = .ok k1 → rf (keyFilePath dir 2) = .ok k2 →
        rf (keyFilePath dir 3) = .ok k3 →
        readUnsealKeys rf dir =
          ([keyFilePath dir 1, keyFilePath dir 2, keyFilePath dir 3], .ok [k1, k2, k3])) ∧
    (∀ (rf : String → Except String String) (dir : String),
        exceptOk (rf (keyFilePath dir 1)) = false ∨
        exceptOk (rf (keyFilePath dir 2)) = false ∨
        exceptOk (rf (keyFilePath dir 3)) = false →
        exceptOk (readUnsealKeys rf dir).2 = false) ∧
    (∀ (rf : String → Except String String)
        (rs : Nat → String → HttpResult UnsealResponse) (envDir : String),
        exceptOk (readUnsealKeys rf (keysDirOf envDir)).2 = false →
        (unsealVaultFallback rf rs envDir).2.1 = [] ∧
        exceptOk (unsealVaultFallback rf rs envDir).2.2 = false) ∧
    (∀ (rf : String → Except String String)
        (rs : Nat → String → HttpResult UnsealResponse)
        (envDir : String) (paths keys : List String),
        readUnsealKeys rf (keysDirOf envDir) = (paths, .ok keys) →
        (unsealVaultFallback rf rs envDir).1 = paths ∧
        (unsealVaultFallback rf rs envDir).2.1 = (applyKeysLoop rs 0 keys).1 ∧
        (unsealVaultFallback rf rs envDir).2.1 =
          keys.take (unsealVaultFallback rf rs envDir).2.1.length ∧
        ((∀ j k, applyCallOk (rs j k) = true) →
          (unsealVaultFallback rf rs envDir).2.1 = keys)) := by
  refine ⟨rfl, ?_, ?_, ?_, ?_, ?_⟩
  · intro d h
    simp [keysDirOf, h]
  · intro rf dir k1 k2 k3 h1 h2 h3
    simp [readUnsealKeys, h1, h2, h3]
  · intro rf dir h
    rcases h with h | h | h <;>
      obtain ⟨m, hm⟩ := (exceptOk_false_iff _).mp h
    · simp [readUnsealKeys, hm, exceptOk]
    · cases hr1 : rf (keyFilePath dir 1) with
      | error m1 => simp [readUnsealKeys, hr1, exceptOk]
      | ok v1 => simp [readUnsealKeys, hr1, hm, exceptOk]
    · cases hr1 : rf (keyFilePath dir 1) with
      | error m1 => simp [readUnsealKeys, hr1, exceptOk]
      | ok v1 =>
        cases hr2 : rf (keyFilePath dir 2) with
        | error m2 => simp [readUnsealKeys, hr1, hr2, exceptOk]
        | ok v2 => simp [readUnsealKeys, hr1, hr2, hm, exceptOk]
  · intro rf rs envDir h
    obtain ⟨m, hm⟩ := (exceptOk_false_iff _).mp h
    cases hread : readUnsealKeys rf (keysDirOf envDir) with
    | mk paths res =>
      rw [hread] at hm
      simp only at hm
      subst hm
      simp [unsealVaultFallback, hread, exceptOk]
  · intro rf rs envDir paths keys hread
    refine ⟨?_, ?_, ?_, ?_⟩
    · simp [unsealVaultFallback, hread]
    · simp [unsealVaultFallback, hread]
    · simp only [unsealVaultFallback, hread]
      exact applyKeysLoop_take rs keys 0
    · intro hall
      simp only [unsealVaultFallback, hread]
      exact applyKeysLoop_ok_all rs keys 0 (applyKeysLoop_all_ok rs keys 0 hall)

/-- File-system oracle for the C8 witness: the three default key files
exist with contents `aaa`, `bbb`, `ccc`. -/
def c8ReadFile : String → Except String String := fun p =>
  if p = "/vault/unseal-keys/key1" then .ok "aaa"
  else if p = "/vault/unseal-keys/key2" then .ok "bbb"
  else if p = "/vault/unseal-keys/key3" then .ok "ccc"
  else .error "no such file"

/-- Transport oracle for the C8 witness: every unseal call answers 200
with a decodable body. -/
def c8Respond : Nat → String → HttpResult UnsealResponse := fun _ _ =>
  HttpResult.response ⟨200, Body.decoded ⟨true⟩⟩

/-- C8 witness: with the three default key files readable, the fallback
posts exactly their contents in 1..3 order; with an unreadable file
system, it posts nothing. -/
theorem c8_fallback_files_witness :
    (unsealVaultFallback c8ReadFile c8Respond "").2.1 = ["aaa", "bbb", "ccc"] ∧
    (unsealVaultFallback (fun _ => .error "denied") c8Respond "").2.1 = [] := by
  constructor
  · exact (c8_fallback_files.2.2.2.2.2 c8ReadFile c8Respond ""
      ["/vault/unseal-keys/key1", "/vault/unseal-keys/key2", "/vault/unseal-keys/key3"]
      ["aaa", "bbb", "ccc"] rfl).2.2.2 (fun _ _ => rfl)
  · exact (c8_fallback_files.2.2.2.2.1 (fun _ => .error "denied") c8Respond "" rfl).1

/-! ## C9: partial persistence failure across two ticks -/

/-- C9: when one of the two secret creates succeeds and the other fails
during initialization, the run returns a Go error — it never panics and
applies no share — and the enclosing tick continues; on a later tick in
which the instance probes `initialized = true` the loop does not invoke
initialization but proceeds to the sealed-state check (in `part_008`,
directly to the sealed branch of the per-pod body; in `src/main.go`, past
the initialization phase into the secret-fetch/unseal phase). -/
theorem c9_partial_persistence :
    (∀ (ir : InitRequest → HttpResult InitResponse) (cr : Except String Unit)
        (ur : Nat → String → HttpResult UnsealResponse) (e : String),
        (initializeVault808 ir (.error e) cr ur).2 ≠ .panicked ∧
        (initializeVault808 ir (.error e) cr ur).1.unsealKeysPosted = []) ∧
    (∀ (ir : InitRequest → HttpResult InitResponse) (cu : Except String Unit)
        (ur : Nat → String → HttpResult UnsealResponse) (e : String),
        (initializeVault808 ir cu (.error e) ur).2 ≠ .panicked ∧
        (initializeVault808 ir cu (.error e) ur).1.unsealKeysPosted = []) ∧
    (∀ (o : PodOracles) (s : VaultStatus) (resp : InitResponse) (e : String),
        checkVaultStatus o.health = .ok s → s.initialized = false →
        decodeInitResult (o.initRespond initRequestGo) = .ok resp →
        o.createUnseal = .ok () → o.createRoot = .error e →
        tickPod808 o = .initBranch ⟨[initRequestGo], true, true, []⟩
          (.errReturn ("failed to create root token secret: " ++ e))) ∧
    (∀ (o : PodOracles) (s : VaultStatus),
        checkVaultStatus o.health = .ok s → s.initialized = true →
        initInvoked (tickPod808 o) = false ∧
        (s.sealed = true → isUnsealBranch (tickPod808 o) = true) ∧
        (s.sealed = false → tickPod808 o = .healthy)) ∧
    (∀ (o : MainGoOracles) (pods : List String) (resp : InitResponse) (e : String),
        pods ≠ [] → anyInitializedScan o.probe pods = false →
        (initializePkg o.initRespond).2 = .ok resp →
        o.createUnsealKeys = .ok () → o.createRootToken = .error e →
        tickMainGo o pods = .persistRootTokenFailed) ∧
    (∀ (o : MainGoOracles) (pods : List String) (d : List (String × String)),
        pods ≠ [] → anyInitializedScan o.probe pods = true →
        o.getUnsealSecret = .ok d →
        tickMainGo o pods = .unsealPhase) := by
  refine ⟨?_, ?_, ?_, ?_, ?_, ?_⟩
  · intro ir cr ur e
    cases h : decodeInitResult (ir initRequestGo) with
    | error m => simp [initializeVault808, h]
    | ok resp => simp [initializeVault808, h]
  · intro ir cu ur e
    cases h : decodeInitResult (ir initRequestGo) with
    | error m => simp [initializeVault808, h]
    | ok resp =>
      cases cu with
      | error m => simp [initializeVault808, h]
      | ok u => simp [initializeVault808, h]
  · intro o s resp e hs hi hdec hcu hcr
    simp [tickPod808, hs, hi, initializeVault808, hdec, hcu, hcr]
  · intro o s hs hi
    refine ⟨?_, ?_, ?_⟩
    · cases hseal : s.sealed with
      | false => simp [tickPod808, hs, hi, hseal, initInvoked]
      | true =>
        cases hg : o.getUnsealSecret with
        | error m => simp [tickPod808, hs, hi, hseal, hg, initInvoked]
        | ok d => simp [tickPod808, hs, hi, hseal, hg, initInvoked]
    · intro hseal
      cases hg : o.getUnsealSecret with
      | error m => simp [tickPod808, hs, hi, hseal, hg, isUnsealBranch]
      | ok d => simp [tickPod808, hs, hi, hseal, hg, isUnsealBranch]
    · intro hseal
      simp [tickPod808, hs, hi, hseal]
  · intro o pods resp e hne hscan hinit hcu hcr
    cases pods with
    | nil => cases hne rfl
    | cons p rest =>
      simp only [tickMainGo, hscan]
      simp only [Bool.false_eq_true, if_neg, hinit, hcu, hcr]
      rfl
  · intro o pods d hne hscan hget
    cases pods with
    | nil => cases hne rfl
    | cons p rest => simp [tickMainGo, hscan, hget]

/-- Oracles for the C9 witness, tick 1: the pod probes uninitialized, init
succeeds with five shares, the unseal-keys create succeeds, the root-token
create fails. -/
def c9PodTick1 : PodOracles :=
  { health := HttpResult.response ⟨200, Body.decoded ⟨true, false⟩⟩
    initRespond := fun _ =>
      HttpResult.response ⟨200, Body.decoded ⟨["k1", "k2", "k3", "k4", "k5"], "root"⟩⟩
    createUnseal := .ok ()
    createRoot := .error "forbidden"
    getUnsealSecret := .error "not found"
    unsealRespond := fun _ _ => HttpResult.response ⟨200, Body.decoded ⟨true⟩⟩
    readFile := fun _ => .error "no such file"
    envKeysDir := "" }

/-- Oracles for the C9 witness, tick 2: the same pod now probes
initialized (and still sealed). -/
def c9PodTick2 : PodOracles :=
  { c9PodTick1 with health := HttpResult.response ⟨200, Body.decoded ⟨true, true⟩⟩ }

/-- Oracles for the C9 witness, `src/main.go` ticks. -/
def c9MainTick1 : MainGoOracles :=
  { probe := fun _ => .ok ⟨true, false⟩
    initRespond := fun _ =>
      HttpResult.response ⟨200, Body.decoded ⟨["k1", "k2", "k3", "k4", "k5"], "root"⟩⟩
    createUnsealKeys := .ok ()
    createRootToken := .error "forbidden"
    getUnsealSecret := .ok [("key1", "k1")] }

/-- Oracles for the C9 witness, `src/main.go` tick 2: the pod now probes
initialized. -/
def c9MainTick2 : MainGoOracles :=
  { c9MainTick1 with probe := fun _ => .ok ⟨true, true⟩ }

/-- C9 witness: tick 1 ends with a surfaced persistence error (no panic,
no share applied), and tick 2 — with the instance probing initialized —
skips initialization and goes to the sealed-state check, in both loop
variants. -/
theorem c9_partial_persistence_witness :
    tickPod808 c9PodTick1 = .initBranch ⟨[initRequestGo], true, true, []⟩
      (.errReturn ("failed to create root token secret: " ++ "forbidden")) ∧
    initInvoked (tickPod808 c9PodTick2) = false ∧
    isUnsealBranch (tickPod808 c9PodTick2) = true ∧
    tickMainGo c9MainTick1 ["10.0.0.1"] = .persistRootTokenFailed ∧
    tickMainGo c9MainTick2 ["10.0.0.1"] = .unsealPhase := by
  refine ⟨?_, ?_, ?_, ?_, ?_⟩
  · exact c9_partial_persistence.2.2.1 c9PodTick1 ⟨true, false⟩
      ⟨["k1", "k2", "k3", "k4", "k5"], "root"⟩ "forbidden" rfl rfl rfl rfl rfl
  · exact (c9_partial_persistence.2.2.2.1 c9PodTick2 ⟨true, true⟩ rfl rfl).1
  · exact (c9_partial_persistence.2.2.2.1 c9PodTick2 ⟨true, true⟩ rfl rfl).2.1 rfl
  · exact c9_partial_persistence.2.2.2.2.1 c9MainTick1 ["10.0.0.1"]
      ⟨["k1", "k2", "k3", "k4", "k5"], "root"⟩ "forbidden" (by simp) rfl rfl rfl rfl
  · exact c9_partial_persistence.2.2.2.2.2 c9MainTick2 ["10.0.0.1"]
      [("key1", "k1")] (by simp) rfl rfl

/-! ## C10: configuration loading -/

/-- `int64` wrap-around is the identity on values already in range. -/
theorem int64Wrap_eq_self (x : Int) (h1 : -(2 ^ 63) ≤ x) (h2 : x < 2 ^ 63) :
    int64Wrap x = x := by
  unfold int64Wrap
  omega

/-- Environment for the C10 counterexample: a parseable but huge check
interval. -/
def envBigInterval : String → String := fun k =>
  if k = "CHECK_INTERVAL" then "10000000000" else ""

/-- C10 counterexample: `CHECK_INTERVAL=10000000000` parses as the integer
`10^10`, but the configured interval is not `10^10` seconds: the `int64`
nanosecond count `10^10 * 10^9` wraps to a negative duration, so "the
interval becomes n seconds" fails for this parseable value of `n`. -/
theorem c10_counterexample :
    goAtoi (envBigInterval "CHECK_INTERVAL") = some 10000000000 ∧
    (loadConfig envBigInterval).checkIntervalNs = -8446744073709551616 ∧
    (loadConfig envBigInterval).checkIntervalNs ≠ 10000000000 * goSecond := by
  refine ⟨by decide, by decide, by decide⟩

/-- C10 (amended): configuration loading is total; `VAULT_NAMESPACE` and
`VAULT_PORT` fall back to `"vault"` and `"8200"` exactly when unset or
empty; an unset, empty or unparseable `CHECK_INTERVAL` silently falls back
to 10 seconds; and a `CHECK_INTERVAL` that parses as the integer `n` yields
an interval of exactly `n` seconds — zero and negative values included,
with no validation — whenever `n * 10^9` fits in a signed 64-bit integer
(beyond that the nanosecond count wraps, as the counterexample shows). -/
theorem c10_config :
    (∀ env : String → String, (loadConfig env).vaultNamespace =
        (if env "VAULT_NAMESPACE" = "" then "vault" else env "VAULT_NAMESPACE")) ∧
    (∀ env : String → String, (loadConfig env).vaultPort =
        (if env "VAULT_PORT" = "" then "8200" else env "VAULT_PORT")) ∧
    (∀ env : String → String, env "CHECK_INTERVAL" = "" →
        (loadConfig env).checkIntervalNs = 10 * goSecond) ∧
    (∀ env : String → String, goAtoi (env "CHECK_INTERVAL") = none →
        (loadConfig env).checkIntervalNs = 10 * goSecond) ∧
    (∀ (env : String → String) (n : Int),
        goAtoi (env "CHECK_INTERVAL") = some n →
        -(2 ^ 63) ≤ n * goSecond → n * goSecond < 2 ^ 63 →
        (loadConfig env).checkIntervalNs = n * goSecond) := by
  refine ⟨?_, ?_, ?_, ?_, ?_⟩
  · intro env
    by_cases h : env "VAULT_NAMESPACE" = "" <;>
      simp [loadConfig, getEnvOrDefault, h]
  · intro env
    by_cases h : env "VAULT_PORT" = "" <;>
      simp [loadConfig, getEnvOrDefault, h]
  · intro env h
    have hval : getEnvAsIntOrDefault env "CHECK_INTERVAL" 10 = 10 := by
      unfold getEnvAsIntOrDefault
      simp [h]
    simp only [loadConfig, hval]
    decide
  · intro env h
    have hval : getEnvAsIntOrDefault env "CHECK_INTERVAL" 10 = 10 := by
      unfold getEnvAsIntOrDefault
      rw [h]
      simp
    simp only [loadConfig, hval]
    decide
  · intro env n hparse h1 h2
    have he : ¬ env "CHECK_INTERVAL" = "" := by
      intro h
      rw [h] at hparse
      simp [goAtoi] at hparse
    have hval : getEnvAsIntOrDefault env "CHECK_INTERVAL" 10 = n := by
      unfold getEnvAsIntOrDefault
      rw [hparse]
      simp [he]
    simp only [loadConfig, hval]
    exact int64Wrap_eq_self (n * goSecond) h1 h2

/-- Environment for the C10 witness: a negative check interval. -/
def envNegInterval : String → String := fun k =>
  if k = "CHECK_INTERVAL" then "-5" else ""

/-- C10 witness: with `CHECK_INTERVAL=-5` and the namespace unset, the
namespace defaults to `"vault"` and the interval becomes exactly −5
seconds, with no validation. -/
theorem c10_config_witness :
    (loadConfig envNegInterval).vaultNamespace = "vault" ∧
    (loadConfig envNegInterval).checkIntervalNs = -5 * goSecond :=
  ⟨by simpa using c10_config.1 envNegInterval,
    c10_config.2.2.2.2 envNegInterval (-5) (by decide) (by decide) (by decide)⟩

end VaultUtils
